import Mathlib

/-!
Verification of the `sun` user-interface widget library.

Shallow embedding of the interaction logic of
* `OnOffSwitch` (src/js/OnOffSwitch.js): the drag handler attached to the
  thumb node, the `crossedMidpoint` latch and the release policy;
* `ComboBox` (the scenery combo box): the popup open/close/dismiss
  protocol, the per-display click-to-dismiss listener, keyboard
  navigation, item selection and popup positioning;
* `RoundButtonView`: the fail-fast configuration check in the constructor.

Pixel rendering, gradients, tandem instrumentation and the accessibility
tree are outside the embedding; coordinates are rationals, scene-graph
transform functions are abstract parameters.
-/

/-! ## OnOffSwitch (src/js/OnOffSwitch.js)

The switch consists of a track of width `width` and a thumb of width
`0.5 * width`.  A `SimpleDragHandler` on the thumb keeps a
`thumbCrossedMidpoint` flag and a closed-over `dragged` flag; on release
(`end`) the bound boolean property is either toggled or snapped to the
side the thumb rests on.  We model the thumb node by the coordinate of
its left edge and the bound `onProperty` by the `value` field. -/

/-- Options of `OnOffSwitch` relevant to the drag logic: `size.width`
(the track width; the thumb width is half of it) and the
`toggleWhileDragging` flag. -/
structure SwitchOptions where
  width : ℚ
  toggleWhileDragging : Bool

/-- State of one switch during interaction: the thumb's left edge, the
drag handler's `thumbCrossedMidpoint` flag, the closed-over `dragged`
flag, and the current value of the bound `onProperty`. -/
structure SwitchState where
  thumbLeft : ℚ
  thumbCrossedMidpoint : Bool
  dragged : Bool
  value : Bool
deriving DecidableEq

/-- Function `thumbPositionToValue`: the value represented by the current thumb
position, `thumbNode.centerX > trackNode.centerX`.  The thumb's width is
`width / 2`, so its centre is `left + width / 4`; the track's centre is
`width / 2`. -/
def thumbPositionToValue (w left : ℚ) : Bool :=
  decide (left + w / 4 > w / 2)

/-- The thumb-movement clamp in `translate`: if moving by `delta` would
push the thumb's left edge below `0` it is pinned at `0`; if it would
push the right edge (`left + width/2`) past `width` the right edge is
pinned at `width`; otherwise the thumb moves by `delta`. -/
def clampThumb (w left delta : ℚ) : ℚ :=
  if left + delta < 0 then 0
  else if left + w / 2 + delta > w then w - w / 2
  else left + delta

/-- Handler `start`: a new press resets `thumbCrossedMidpoint` to `false`.
(The `dragged` flag is not touched here; it is reset by the separate
`ButtonListener` on release.) -/
def startPress (s : SwitchState) : SwitchState :=
  { s with thumbCrossedMidpoint := false }

/-- One pointer movement: the `drag` callback sets `dragged := true` and
the `translate` callback moves the thumb (clamped), latches
`thumbCrossedMidpoint` when the value represented by the new thumb
position differs from the property's current value, and — only when
`toggleWhileDragging` is set — writes that value to the property. -/
def translateStep (o : SwitchOptions) (s : SwitchState) (delta : ℚ) : SwitchState :=
  let newLeft := clampThumb o.width s.thumbLeft delta
  let v := thumbPositionToValue o.width newLeft
  { thumbLeft := newLeft
    thumbCrossedMidpoint := s.thumbCrossedMidpoint || (v != s.value)
    dragged := true
    value := if o.toggleWhileDragging then v else s.value }

/-- A drag is a sequence of pointer movements. -/
def runDeltas (o : SwitchOptions) (ds : List ℚ) (s : SwitchState) : SwitchState :=
  ds.foldl (translateStep o) s

/-- Handler `end`: on release after an actual drag, if the midpoint was crossed
the property snaps to the side the thumb rests on, otherwise it is
toggled; without a drag `end` does nothing. -/
def endRelease (o : SwitchOptions) (s : SwitchState) : SwitchState :=
  if s.dragged then
    if s.thumbCrossedMidpoint then
      { s with value := thumbPositionToValue o.width s.thumbLeft }
    else
      { s with value := !s.value }
  else s

/-- The `ButtonListener` on the whole switch node: `fire` toggles only
when the thumb was not dragged, and the `dragged` flag is cleared on
release in either case. -/
def buttonFire (s : SwitchState) : SwitchState :=
  if !s.dragged then { s with value := !s.value, dragged := false }
  else { s with dragged := false }

/-- A complete press–drag–release gesture: `start`, the drag movements,
the drag handler's `end`, then the `ButtonListener`'s release. -/
def pressDragRelease (o : SwitchOptions) (ds : List ℚ) (s : SwitchState) : SwitchState :=
  buttonFire (endRelease o (runDeltas o ds (startPress s)))

/-- The thumb's left edge after a sequence of movements (position does
not depend on any flag). -/
def thumbAfter (o : SwitchOptions) (ds : List ℚ) (left : ℚ) : ℚ :=
  ds.foldl (clampThumb o.width) left

/-- Formalisation of the spec's wording for the midpoint latch: during a
drag starting with value `v0` and thumb left edge `left`, the midpoint
counts as crossed when some instantaneous thumb position along the drag
maps to a boolean value different from `v0`, the value held before the
drag began. -/
def crossedSpec (o : SwitchOptions) (v0 : Bool) (left : ℚ) : List ℚ → Bool
  | [] => false
  | d :: ds =>
      let l1 := clampThumb o.width left d
      (thumbPositionToValue o.width l1 != v0) || crossedSpec o v0 l1 ds

theorem runDeltas_nil (o : SwitchOptions) (s : SwitchState) : runDeltas o [] s = s := rfl

theorem runDeltas_cons (o : SwitchOptions) (d : ℚ) (ds : List ℚ) (s : SwitchState) :
    runDeltas o (d :: ds) s = runDeltas o ds (translateStep o s d) := rfl

/-- Once the latch is set it survives any further movements. -/
theorem runDeltas_crossed_mono (o : SwitchOptions) (ds : List ℚ) :
    ∀ s : SwitchState, s.thumbCrossedMidpoint = true →
      (runDeltas o ds s).thumbCrossedMidpoint = true := by
  induction ds with
  | nil => intro s hs; simpa [runDeltas] using hs
  | cons d ds ih =>
      intro s hs
      rw [runDeltas_cons]
      exact ih _ (by simp [translateStep, hs])

/-- The drag handler's latch agrees with the spec-level crossing
predicate (relative to the value held when the drag state `s` was
entered). -/
theorem runDeltas_crossed_eq (o : SwitchOptions) (ds : List ℚ) :
    ∀ s : SwitchState,
      (runDeltas o ds s).thumbCrossedMidpoint
        = (s.thumbCrossedMidpoint || crossedSpec o s.value s.thumbLeft ds) := by
  induction ds with
  | nil => intro s; simp [runDeltas, crossedSpec]
  | cons d ds ih =>
      intro s
      rw [runDeltas_cons]
      by_cases hv : thumbPositionToValue o.width (clampThumb o.width s.thumbLeft d) = s.value
      · rw [ih]
        simp [translateStep, crossedSpec, hv]
      · have hlatch : (translateStep o s d).thumbCrossedMidpoint = true := by
          simp [translateStep, hv]
        rw [runDeltas_crossed_mono o ds _ hlatch]
        simp [crossedSpec, hv]

/-- As long as the midpoint is never crossed, the bound property keeps
its value through the drag (with or without `toggleWhileDragging`). -/
theorem runDeltas_value_of_not_crossed (o : SwitchOptions) (ds : List ℚ) :
    ∀ s : SwitchState, crossedSpec o s.value s.thumbLeft ds = false →
      (runDeltas o ds s).value = s.value := by
  induction ds with
  | nil => intro s _; rfl
  | cons d ds ih =>
      intro s hs
      simp only [crossedSpec, Bool.or_eq_false_iff, bne_eq_false_iff_eq] at hs
      rw [runDeltas_cons]
      have hstep : (translateStep o s d).value = s.value := by
        simp [translateStep, hs.1]
      have hleft : (translateStep o s d).thumbLeft = clampThumb o.width s.thumbLeft d := rfl
      have h2 := ih (translateStep o s d) (by rw [hstep, hleft]; exact hs.2)
      rw [h2, hstep]

/-- The thumb position after a drag is `thumbAfter`. -/
theorem runDeltas_thumbLeft (o : SwitchOptions) (ds : List ℚ) :
    ∀ s : SwitchState, (runDeltas o ds s).thumbLeft = thumbAfter o ds s.thumbLeft := by
  induction ds with
  | nil => intro s; rfl
  | cons d ds ih =>
      intro s
      rw [runDeltas_cons, ih]
      rfl

/-- The `dragged` flag, once set, survives further movements. -/
theorem runDeltas_dragged_mono (o : SwitchOptions) (ds : List ℚ) :
    ∀ s : SwitchState, s.dragged = true → (runDeltas o ds s).dragged = true := by
  induction ds with
  | nil => intro s hs; simpa [runDeltas] using hs
  | cons d ds ih =>
      intro s _
      rw [runDeltas_cons]
      exact ih _ (by simp [translateStep])

/-- A non-empty drag sets the `dragged` flag. -/
theorem runDeltas_dragged (o : SwitchOptions) (d : ℚ) (ds : List ℚ) (s : SwitchState) :
    (runDeltas o (d :: ds) s).dragged = true := by
  rw [runDeltas_cons]
  exact runDeltas_dragged_mono o ds _ (by simp [translateStep])

/-- Claim C2: in every OnOffSwitch press–drag–release gesture, if the
midpoint was never crossed the release toggles the bound property
unconditionally; if it was crossed at least once the release sets the
property to the value given by the thumb's final side (centre right of
the track centre means `true`), so in particular a drag that crosses
and returns to the original side leaves the value unchanged. -/
theorem onOffSwitch_release_policy (o : SwitchOptions) (ds : List ℚ) (s : SwitchState)
    (hds : ds ≠ []) :
    (crossedSpec o s.value s.thumbLeft ds = false →
      (pressDragRelease o ds s).value = !s.value)
    ∧ (crossedSpec o s.value s.thumbLeft ds = true →
      (pressDragRelease o ds s).value
        = thumbPositionToValue o.width (thumbAfter o ds s.thumbLeft))
    ∧ (crossedSpec o s.value s.thumbLeft ds = true ∧
          thumbPositionToValue o.width (thumbAfter o ds s.thumbLeft) = s.value →
      (pressDragRelease o ds s).value = s.value) := by
  have hdrag : (runDeltas o ds (startPress s)).dragged = true := by
    match ds, hds with
    | d :: ds', _ => exact runDeltas_dragged o d ds' _
  have hcross : (runDeltas o ds (startPress s)).thumbCrossedMidpoint
      = crossedSpec o s.value s.thumbLeft ds := by
    rw [runDeltas_crossed_eq]
    simp [startPress]
  have hleft : (runDeltas o ds (startPress s)).thumbLeft = thumbAfter o ds s.thumbLeft := by
    rw [runDeltas_thumbLeft]
    rfl
  refine ⟨?_, ?_, ?_⟩
  · intro hnc
    have hval : (runDeltas o ds (startPress s)).value = s.value :=
      runDeltas_value_of_not_crossed o ds (startPress s) hnc
    simp [pressDragRelease, endRelease, buttonFire, hdrag, hcross, hnc, hval]
  · intro hc
    simp [pressDragRelease, endRelease, buttonFire, hdrag, hcross, hc, hleft]
  · rintro ⟨hc, hback⟩
    simp [pressDragRelease, endRelease, buttonFire, hdrag, hcross, hc, hleft, hback]

/-- Witness for C2: track width 4, thumb at the off position, one drag
movement of +1 that does not reach the midpoint; release toggles the
value from `false` to `true`. -/
theorem onOffSwitch_release_policy_witness :
    (pressDragRelease ⟨4, false⟩ [(1 : ℚ)] ⟨0, false, false, false⟩).value = !false :=
  (onOffSwitch_release_policy ⟨4, false⟩ [(1 : ℚ)] ⟨0, false, false, false⟩
    (List.cons_ne_nil _ _)).1 (by with_unfolding_all decide)

/-- Claim C4: the `thumbCrossedMidpoint` flag is reset to `false` by
`start` on every new press; after any sequence of drag movements it
equals the spec-level crossing predicate (it has latched exactly when
some instantaneous thumb position during the drag mapped to a value
different from the value held before the drag began); and once the flag
is `true` it stays `true` under any further movements. -/
theorem onOffSwitch_crossedMidpoint_latch (o : SwitchOptions) (s : SwitchState)
    (ds : List ℚ) :
    (startPress s).thumbCrossedMidpoint = false
    ∧ (runDeltas o ds (startPress s)).thumbCrossedMidpoint
        = crossedSpec o s.value s.thumbLeft ds
    ∧ (∀ ds' : List ℚ, ∀ s' : SwitchState, s'.thumbCrossedMidpoint = true →
        (runDeltas o ds' s').thumbCrossedMidpoint = true) := by
  refine ⟨rfl, ?_, fun ds' s' h => runDeltas_crossed_mono o ds' s' h⟩
  rw [runDeltas_crossed_eq]
  simp [startPress]

/-- Witness for C4: applying the latch persistence part at a concrete
already-latched state and one further movement. -/
theorem onOffSwitch_crossedMidpoint_latch_witness :
    (runDeltas ⟨4, false⟩ [(1 : ℚ)] ⟨0, true, false, false⟩).thumbCrossedMidpoint = true :=
  (onOffSwitch_crossedMidpoint_latch ⟨4, false⟩ ⟨0, false, false, false⟩ []).2.2
    [(1 : ℚ)] ⟨0, true, false, false⟩ rfl

/-! ## ComboBox popup dismissal (src/unnamed/part_001)

Each `ComboBox` keeps a popup list node (`listNode.visible`), a
`clickToDismissListener` and an `enableClickToDismissListener` flag; the
listener is registered on the shared top-level display by `openPopup`
and removed by `closePopup` or by item selection.

Several combo boxes can live on the same display, so the model indexes
boxes by an arbitrary type `ι` and keeps the display's input-listener
list as the list of box indices whose `clickToDismissListener` is
currently registered, in registration order.

Event dispatch follows the behaviour documented at the
`enableClickToDismissListener` declaration in the source: scenery
propagates a `down` event up the event trail, so the pressed button's
own listener runs first, and afterwards every listener registered on
the display — including one registered by the button's own handler
during this very event — receives the same `down`. -/

/-- The per-box popup state: `listNode.visible` and the
`enableClickToDismissListener` arming flag. -/
structure ComboBoxPopup where
  visible : Bool
  enableClickToDismissListener : Bool
deriving DecidableEq

/-- A display with the popup state of every combo box on it and the
list of currently registered `clickToDismissListener`s (identified by
the box they belong to), in registration order. -/
structure DisplayState (ι : Type) where
  box : ι → ComboBoxPopup
  listeners : List ι

variable {ι : Type} [DecidableEq ι]

/-- Function `closePopup`: removes the box's `clickToDismissListener` from the
display and hides the list node. -/
def closePopup (i : ι) (s : DisplayState ι) : DisplayState ι :=
  { box := fun j => if j = i then { s.box i with visible := false } else s.box j
    listeners := s.listeners.erase i }

/-- Function `openPopup`: does nothing when the list is already visible;
otherwise makes the list visible, clears
`enableClickToDismissListener` and registers the box's
`clickToDismissListener` on the display.  (Repositioning of the list is
modelled separately, see `moveList` below.) -/
def openPopup (i : ι) (s : DisplayState ι) : DisplayState ι :=
  if (s.box i).visible then s
  else
    { box := fun j => if j = i then ⟨true, false⟩ else s.box j
      listeners := s.listeners ++ [i] }

/-- Delivery of a `down` event to one box's `clickToDismissListener`:
once armed it closes the popup, the first delivery only arms it. -/
def clickToDismissDown (i : ι) (s : DisplayState ι) : DisplayState ι :=
  if (s.box i).enableClickToDismissListener then closePopup i s
  else
    { s with box := fun j =>
        if j = i then { s.box i with enableClickToDismissListener := true } else s.box j }

/-- Display-level dispatch of a `down` event to the registered
listeners, in order. -/
def dispatchDown (l : List ι) (s : DisplayState ι) : DisplayState ι :=
  l.foldl (fun s j => clickToDismissDown j s) s

/-- A `down` on box `i`'s button: the button's own listener
(`openPopup`) runs first, then the display delivers the same `down` to
every listener registered at that point. -/
def downOnButton (i : ι) (s : DisplayState ι) : DisplayState ι :=
  let s1 := openPopup i s
  dispatchDown s1.listeners s1

/-- A `down` anywhere that is not on a combo box button and not on a
popup list item: only the display-level listeners see it. -/
def downOutside (s : DisplayState ι) : DisplayState ι :=
  dispatchDown s.listeners s

theorem clickToDismissDown_box_ne (i j : ι) (hij : i ≠ j) (s : DisplayState ι) :
    (clickToDismissDown j s).box i = s.box i := by
  unfold clickToDismissDown closePopup
  by_cases h : (s.box j).enableClickToDismissListener = true <;>
    simp [h, hij]

theorem clickToDismissDown_mem_ne (i j : ι) (hij : i ≠ j) (s : DisplayState ι)
    (hmem : i ∈ s.listeners) : i ∈ (clickToDismissDown j s).listeners := by
  unfold clickToDismissDown closePopup
  by_cases h : (s.box j).enableClickToDismissListener = true
  · simpa [h] using (List.mem_erase_of_ne hij).mpr hmem
  · simpa [h] using hmem

/-- The dispatch invariant behind C1 and C3: a box whose popup is
visible and whose listener is registered survives the display-level
dispatch of a single `down` event — its popup stays visible and its
listener stays registered — provided the `down` reaches it at most once
while unarmed (which is what registration order guarantees).  Its
arming flag afterwards records whether the `down` reached it. -/
theorem dispatchDown_invariant (l : List ι) :
    ∀ (s : DisplayState ι) (i : ι),
      (s.box i).visible = true →
      i ∈ s.listeners →
      (((s.box i).enableClickToDismissListener = true ∧ i ∉ l) ∨
        ((s.box i).enableClickToDismissListener = false ∧ l.count i ≤ 1)) →
      ((dispatchDown l s).box i).visible = true ∧
        i ∈ (dispatchDown l s).listeners ∧
        ((dispatchDown l s).box i).enableClickToDismissListener
          = ((s.box i).enableClickToDismissListener || decide (i ∈ l)) := by
  induction l with
  | nil =>
      intro s i hvis hmem _
      refine ⟨hvis, hmem, ?_⟩
      simp [dispatchDown]
  | cons j l ih =>
      intro s i hvis hmem hdisj
      have hstep : dispatchDown (j :: l) s = dispatchDown l (clickToDismissDown j s) := rfl
      rw [hstep]
      by_cases hij : i = j
      · subst hij
        have harm : (s.box i).enableClickToDismissListener = false := by
          rcases hdisj with ⟨_, habs⟩ | ⟨ha, _⟩
          · exact absurd (List.mem_cons_self i l) habs
          · exact ha
        have hnotl : i ∉ l := by
          rcases hdisj with ⟨_, habs⟩ | ⟨_, hc⟩
          · exact absurd (List.mem_cons_self i l) habs
          · have h1 : (i :: l).count i = l.count i + 1 := List.count_cons_self i l
            have hc' : l.count i = 0 := by omega
            exact List.count_eq_zero.mp hc'
        have hbox : (clickToDismissDown i s).box i
            = { s.box i with enableClickToDismissListener := true } := by
          simp [clickToDismissDown, harm]
        have hlis : (clickToDismissDown i s).listeners = s.listeners := by
          simp [clickToDismissDown, harm]
        obtain ⟨h1, h2, h3⟩ := ih (clickToDismissDown i s) i
          (by rw [hbox]; exact hvis) (by rw [hlis]; exact hmem)
          (Or.inl ⟨by rw [hbox], hnotl⟩)
        refine ⟨h1, h2, ?_⟩
        rw [h3, hbox]
        simp [harm]
      · have hbox := clickToDismissDown_box_ne i j hij s
        have hmem' := clickToDismissDown_mem_ne i j hij s hmem
        have hdisj' :
            (((clickToDismissDown j s).box i).enableClickToDismissListener = true ∧ i ∉ l) ∨
              (((clickToDismissDown j s).box i).enableClickToDismissListener = false ∧
                l.count i ≤ 1) := by
          rw [hbox]
          rcases hdisj with ⟨ha, hni⟩ | ⟨ha, hc⟩
          · exact Or.inl ⟨ha, fun h => hni (List.mem_cons_of_mem j h)⟩
          · refine Or.inr ⟨ha, ?_⟩
            have hcnt : (j :: l).count i = l.count i := List.count_cons_of_ne hij l
            omega
        obtain ⟨h1, h2, h3⟩ := ih (clickToDismissDown j s) i (by rw [hbox]; exact hvis)
          hmem' hdisj'
        refine ⟨h1, h2, ?_⟩
        rw [h3, hbox]
        simp [List.mem_cons, hij]


/-- Claim C3: after a popup opens and its `clickToDismissListener` is
registered, the opening `down` — the first event the listener sees —
only arms the listener; an unarmed listener ignores (and is armed by)
a delivered `down` without any other state change; and an armed
listener closes its popup and unregisters itself on every delivered
`down`.  In particular the click that triggered the open leaves the
popup it opened visible, with the listener registered and armed. -/
theorem comboBox_clickToDismiss_arming (s : DisplayState ι) (i : ι) :
    ((s.box i).visible = false → i ∉ s.listeners →
      ((downOnButton i s).box i).visible = true ∧
        i ∈ (downOnButton i s).listeners ∧
        ((downOnButton i s).box i).enableClickToDismissListener = true)
    ∧ ((s.box i).enableClickToDismissListener = false →
        (clickToDismissDown i s).box i
            = { s.box i with enableClickToDismissListener := true } ∧
          (clickToDismissDown i s).listeners = s.listeners ∧
          ∀ j : ι, j ≠ i → (clickToDismissDown i s).box j = s.box j)
    ∧ ((s.box i).enableClickToDismissListener = true →
        ((clickToDismissDown i s).box i).visible = false ∧
          (s.listeners.count i ≤ 1 → i ∉ (clickToDismissDown i s).listeners)) := by
  refine ⟨?_, ?_, ?_⟩
  · intro hvis hnl
    have hopen : openPopup i s
        = { box := fun j => if j = i then ⟨true, false⟩ else s.box j
            listeners := s.listeners ++ [i] } := by
      simp [openPopup, hvis]
    have hcount : (s.listeners ++ [i]).count i ≤ 1 := by
      have h0 : s.listeners.count i = 0 := List.count_eq_zero.mpr hnl
      simp [List.count_append, h0]
    obtain ⟨h1, h2, h3⟩ := dispatchDown_invariant ((openPopup i s).listeners)
      (openPopup i s) i (by rw [hopen]; simp) (by rw [hopen]; simp)
      (by rw [hopen]; exact Or.inr ⟨by simp, by simpa [hopen] using hcount⟩)
    have hdb : downOnButton i s
        = dispatchDown (openPopup i s).listeners (openPopup i s) := rfl
    rw [hdb]
    refine ⟨h1, h2, ?_⟩
    rw [h3, hopen]
    simp
  · intro harm
    refine ⟨by simp [clickToDismissDown, harm], by simp [clickToDismissDown, harm], ?_⟩
    intro j hji
    simp [clickToDismissDown, harm, hji]
  · intro harm
    refine ⟨by simp [clickToDismissDown, closePopup, harm], ?_⟩
    intro hcount
    have : (clickToDismissDown i s).listeners = s.listeners.erase i := by
      simp [clickToDismissDown, closePopup, harm]
    rw [this]
    intro hmem
    have h1 : s.listeners.count i ≥ 1 := List.one_le_count_iff.mpr (s.listeners.mem_of_mem_erase hmem)
    have h2 : (s.listeners.erase i).count i = s.listeners.count i - 1 :=
      List.count_erase_self i s.listeners
    have h3 : (s.listeners.erase i).count i ≥ 1 := List.one_le_count_iff.mpr hmem
    omega

/-- Witness for C3: one box (indexed by `Bool`, box `true`), closed and
unregistered; the opening click leaves it open, registered and armed. -/
theorem comboBox_clickToDismiss_arming_witness :
    ((downOnButton true ⟨fun _ => ⟨false, false⟩, []⟩).box true).visible = true ∧
      true ∈ (downOnButton true (⟨fun _ => ⟨false, false⟩, []⟩ : DisplayState Bool)).listeners ∧
      ((downOnButton true ⟨fun _ => ⟨false, false⟩, []⟩).box true).enableClickToDismissListener
        = true :=
  (comboBox_clickToDismiss_arming (⟨fun _ => ⟨false, false⟩, []⟩ : DisplayState Bool) true).1
    rfl (by simp)

/-- Claim C1: opening combo box `A` while combo box `B` is open (and
armed, as every open box is once its opening click has been dispatched)
on the same display closes `B`, and exactly one
`clickToDismissListener` — `A`'s — remains registered on the display. -/
theorem comboBox_single_dismissListener (s : DisplayState ι) (A B : ι) (hAB : A ≠ B)
    (hBvis : (s.box B).visible = true)
    (hBarm : (s.box B).enableClickToDismissListener = true)
    (hl : s.listeners = [B])
    (hAvis : (s.box A).visible = false) :
    ((downOnButton A s).box B).visible = false ∧
      (downOnButton A s).listeners = [A] ∧
      ((downOnButton A s).box A).visible = true := by
  have hBA : B ≠ A := hAB.symm
  have hopen : openPopup A s
      = { box := fun j => if j = A then ⟨true, false⟩ else s.box j
          listeners := [B, A] } := by
    simp [openPopup, hAvis, hl]
  have hdispatch : downOnButton A s
      = clickToDismissDown A (clickToDismissDown B (openPopup A s)) := by
    have h : downOnButton A s = dispatchDown (openPopup A s).listeners (openPopup A s) := rfl
    rw [h, hopen]
    rfl
  have htB : (openPopup A s).box B = s.box B := by
    rw [hopen]; simp [hBA]
  have hstep1 : clickToDismissDown B (openPopup A s) = closePopup B (openPopup A s) := by
    simp [clickToDismissDown, htB, hBarm]
  have hcpA : (closePopup B (openPopup A s)).box A = ⟨true, false⟩ := by
    simp [closePopup, hAB, hopen]
  have hcpB : (closePopup B (openPopup A s)).box B = { s.box B with visible := false } := by
    simp [closePopup, hopen, hBA]
  have hcpl : (closePopup B (openPopup A s)).listeners = [A] := by
    simp [closePopup, hopen]
  have hvA : (clickToDismissDown A (closePopup B (openPopup A s))).box A = ⟨true, true⟩ := by
    simp [clickToDismissDown, hcpA]
  have hvB : (clickToDismissDown A (closePopup B (openPopup A s))).box B
      = { s.box B with visible := false } := by
    rw [clickToDismissDown_box_ne B A hBA, hcpB]
  have hvl : (clickToDismissDown A (closePopup B (openPopup A s))).listeners = [A] := by
    simp [clickToDismissDown, hcpA, hcpl]
  rw [hdispatch, hstep1]
  exact ⟨by rw [hvB], hvl, by rw [hvA]⟩

/-- Witness for C1: two boxes indexed by `Bool` (`A = true`,
`B = false`); `B` is open, armed and registered, `A` is closed; a
`down` on `A`'s button closes `B` and leaves exactly `A`'s listener on
the display. -/
theorem comboBox_single_dismissListener_witness :
    ((downOnButton true (⟨fun b => if b then ⟨false, false⟩ else ⟨true, true⟩, [false]⟩ :
          DisplayState Bool)).box false).visible = false ∧
      (downOnButton true (⟨fun b => if b then ⟨false, false⟩ else ⟨true, true⟩, [false]⟩ :
          DisplayState Bool)).listeners = [true] ∧
      ((downOnButton true (⟨fun b => if b then ⟨false, false⟩ else ⟨true, true⟩, [false]⟩ :
          DisplayState Bool)).box true).visible = true :=
  comboBox_single_dismissListener
    (⟨fun b => if b then ⟨false, false⟩ else ⟨true, true⟩, [false]⟩ : DisplayState Bool)
    true false (by decide) rfl rfl rfl rfl

/-! ## ComboBox popup placement (`moveList` in src/unnamed/part_001)

`moveList` transforms the button's current corner through
`self.localToGlobalPoint` and then `listParent.globalToLocalPoint` and
assigns the list node's `left` together with its `bottom` (list above
the button) or its `top` (list below).  The two transform functions are
abstract parameters of the model; the list node's position is
represented by its `(left, top)` corner, so assigning `bottom = y`
means `top = y - listHeight`. -/

/-- Where the list is positioned relative to the button. -/
inductive ListPosition where
  | above
  | below
deriving DecidableEq

/-- The geometry `moveList` reads when it runs: the two coordinate
transforms and the button node's current edges in combo-box-local
coordinates, plus the list node's height. -/
structure PopupGeometry where
  localToGlobalPoint : ℚ × ℚ → ℚ × ℚ
  globalToLocalPoint : ℚ × ℚ → ℚ × ℚ
  buttonLeft : ℚ
  buttonTop : ℚ
  buttonBottom : ℚ
  listHeight : ℚ

/-- The list node as `openPopup` sees it: visibility and position. -/
structure ListNodeState where
  visible : Bool
  left : ℚ
  top : ℚ
deriving DecidableEq

/-- Function `moveList`: computes the list node's new `(left, top)` from the
button's current bounds.  With `listPosition = above` the point
`(buttonNode.left, buttonNode.top)` is transformed and becomes the
list's bottom-left corner; with `below` the point
`(buttonNode.left, buttonNode.bottom)` is transformed and becomes the
list's top-left corner. -/
def moveList (pos : ListPosition) (g : PopupGeometry) : ℚ × ℚ :=
  match pos with
  | .above =>
      let pButtonGlobal := g.localToGlobalPoint (g.buttonLeft, g.buttonTop)
      let pButtonLocal := g.globalToLocalPoint pButtonGlobal
      (pButtonLocal.1, pButtonLocal.2 - g.listHeight)
  | .below =>
      let pButtonGlobal := g.localToGlobalPoint (g.buttonLeft, g.buttonBottom)
      let pButtonLocal := g.globalToLocalPoint pButtonGlobal
      (pButtonLocal.1, pButtonLocal.2)

/-- The positioning part of `openPopup`: when the list is not yet
visible, `moveList` runs with the current geometry and the list becomes
visible at the freshly computed position; when it is already visible
nothing happens. -/
def openPopupMove (pos : ListPosition) (g : PopupGeometry) (s : ListNodeState) :
    ListNodeState :=
  if s.visible then s
  else { visible := true, left := (moveList pos g).1, top := (moveList pos g).2 }

/-- Claim C7: every time the popup opens, its position is recomputed
from the button's current bounds pushed through the two coordinate
transforms: with `above` the list's bottom edge (`top + listHeight`)
lands on the transformed button top edge, with `below` the list's top
edge lands on the transformed button bottom edge, left edges aligned in
both cases; and the resulting state is independent of whatever position
the list node held before (never cached). -/
theorem comboBox_popup_position (pos : ListPosition) (g : PopupGeometry)
    (s : ListNodeState) (h : s.visible = false) :
    (pos = .above →
      (openPopupMove pos g s).left
          = (g.globalToLocalPoint (g.localToGlobalPoint (g.buttonLeft, g.buttonTop))).1 ∧
        (openPopupMove pos g s).top + g.listHeight
          = (g.globalToLocalPoint (g.localToGlobalPoint (g.buttonLeft, g.buttonTop))).2)
    ∧ (pos = .below →
      (openPopupMove pos g s).left
          = (g.globalToLocalPoint (g.localToGlobalPoint (g.buttonLeft, g.buttonBottom))).1 ∧
        (openPopupMove pos g s).top
          = (g.globalToLocalPoint (g.localToGlobalPoint (g.buttonLeft, g.buttonBottom))).2)
    ∧ (∀ s' : ListNodeState, s'.visible = false →
        openPopupMove pos g s' = openPopupMove pos g s) := by
  refine ⟨?_, ?_, ?_⟩
  · rintro rfl
    constructor <;> simp [openPopupMove, moveList, h]
  · rintro rfl
    constructor <;> simp [openPopupMove, moveList, h]
  · intro s' h'
    simp [openPopupMove, h, h']

/-- Witness for C7: identity transforms, button bottom edge at `5`,
a closed list previously parked at `(7, 8)`; opening below puts the
list's top-left corner at `(1, 5)`. -/
theorem comboBox_popup_position_witness :
    (openPopupMove .below ⟨id, id, 1, 2, 5, 10⟩ ⟨false, 7, 8⟩).left
        = ((⟨id, id, 1, 2, 5, 10⟩ : PopupGeometry).globalToLocalPoint
            ((⟨id, id, 1, 2, 5, 10⟩ : PopupGeometry).localToGlobalPoint (1, 5))).1 ∧
      (openPopupMove .below ⟨id, id, 1, 2, 5, 10⟩ ⟨false, 7, 8⟩).top
        = ((⟨id, id, 1, 2, 5, 10⟩ : PopupGeometry).globalToLocalPoint
            ((⟨id, id, 1, 2, 5, 10⟩ : PopupGeometry).localToGlobalPoint (1, 5))).2 :=
  (comboBox_popup_position .below ⟨id, id, 1, 2, 5, 10⟩ ⟨false, 7, 8⟩ rfl).2.1 rfl

/-- Claim C10: `openPopup` is idempotent while the popup is visible —
invoked on an already-visible list it changes nothing: no visibility
change, no arm-flag reset, no listener registration (first conjunct,
on the dismissal model) and no repositioning (second conjunct, on the
placement model). -/
theorem openPopup_idempotent_while_visible (s : DisplayState ι) (i : ι)
    (h : (s.box i).visible = true) :
    openPopup i s = s
    ∧ ∀ (pos : ListPosition) (g : PopupGeometry) (t : ListNodeState),
        t.visible = true → openPopupMove pos g t = t := by
  refine ⟨by simp [openPopup, h], ?_⟩
  intro pos g t ht
  simp [openPopupMove, ht]

/-- Witness for C10: an open box (indexed by `Bool`) and a visible list
node; `openPopup` leaves both untouched. -/
theorem openPopup_idempotent_while_visible_witness :
    openPopup true (⟨fun _ => ⟨true, true⟩, [true]⟩ : DisplayState Bool)
        = (⟨fun _ => ⟨true, true⟩, [true]⟩ : DisplayState Bool)
      ∧ openPopupMove .below ⟨id, id, 0, 0, 0, 0⟩ ⟨true, 3, 4⟩ = ⟨true, 3, 4⟩ :=
  ⟨(openPopup_idempotent_while_visible
      (⟨fun _ => ⟨true, true⟩, [true]⟩ : DisplayState Bool) true rfl).1,
    (openPopup_idempotent_while_visible
      (⟨fun _ => ⟨true, true⟩, [true]⟩ : DisplayState Bool) true rfl).2
      .below ⟨id, id, 0, 0, 0, 0⟩ ⟨true, 3, 4⟩ rfl⟩

/-! ## ComboBox item selection, focus and keyboard navigation
(src/unnamed/part_001)

This part of the model tracks, for a single combo box with `numItems`
items whose values live in `V`: the popup visibility, whether the
`clickToDismissListener` is registered on the display, the bound
property's value, which node holds keyboard focus, and the index behind
`self.focusedItem`.  Selecting item `i` passes that item's value `v`.

The bound property notifies its observers synchronously inside the
assignment `property.value = ...`; an observer may throw, which aborts
the rest of the handler.  The pointer-path selection handler
(`itemListener.up`) therefore returns `Except`: `error` carries the
state as of the raised exception. -/

/-- Which node holds keyboard focus. -/
inductive ComboFocus where
  | nothing
  | button
  | item (index : Nat)
deriving DecidableEq

/-- The state of one combo box relevant to selection and keyboard
navigation. -/
structure ComboState (V : Type) where
  listVisible : Bool
  dismissRegistered : Bool
  value : V
  focus : ComboFocus
  focusedIndex : Option Nat
  numItems : Nat
deriving DecidableEq

/-- Collapses an `Except` whose error also carries a state: the state
reached when the handler returns normally or when the exception
escapes it. -/
def exceptState {α : Type} : Except α α → α
  | .ok t => t
  | .error t => t

/-- Function `closePopup` (selection model): removes the
`clickToDismissListener` from the display and hides the list. -/
def ComboState.closePopup {V : Type} (s : ComboState V) : ComboState V :=
  { s with dismissRegistered := false, listVisible := false }

/-- The assignment `property.value = ...`: the value is written, then
observers are notified synchronously; a throwing observer propagates
its exception with the value already written. -/
def ComboState.setValue {V : Type} (observerThrows : Bool) (v : V) (s : ComboState V) :
    Except (ComboState V) (ComboState V) :=
  let t := { s with value := v }
  if observerThrows then Except.error t else Except.ok t

/-- Handler `itemListener.up` — pointer-path selection: hide the list, remove
the `clickToDismissListener`, then assign the item's value to the
property (in that order; the source comments that the list closes
before the property changes).  Keyboard focus is not touched on this
path. -/
def ComboState.itemUp {V : Type} (observerThrows : Bool) (v : V) (s : ComboState V) :
    Except (ComboState V) (ComboState V) :=
  let s1 := { s with listVisible := false }
  let s2 := { s1 with dismissRegistered := false }
  ComboState.setValue observerThrows v s2

/-- The assistive-technology `click` listener of an item: assign the
item's value, `closePopup`, then focus the button node. -/
def ComboState.a11yItemClick {V : Type} (v : V) (s : ComboState V) : ComboState V :=
  let s1 := { s with value := v }
  let s2 := s1.closePopup
  { s2 with focus := ComboFocus.button }

/-- Key codes distinguished by the list node's `keydown` listener. -/
inductive Key where
  | escape
  | downArrow
  | upArrow
  | tab
  | other
deriving DecidableEq

/-- The arrow-key branch of the `keydown` listener: the loop looks up
the node `self.focusedItem` among the list's children and focuses
`children[i + direction]` when that child exists; when `i + direction`
falls off either end the lookup yields nothing and nothing happens, and
when no item is tracked the loop matches nothing. -/
def ComboState.moveFocus {V : Type} (direction : Int) (s : ComboState V) : ComboState V :=
  match s.focusedIndex with
  | Option.none => s
  | Option.some i =>
      let next : Int := (i : Int) + direction
      if 0 ≤ next ∧ next < (s.numItems : Int) then
        { s with focusedIndex := Option.some next.toNat, focus := ComboFocus.item next.toNat }
      else s

/-- The `keydown` listener on the list node: Escape closes the popup
and focuses the button, Down/Up arrows move the focused item by ±1,
Tab closes the popup (leaving focus to proceed naturally). -/
def ComboState.handleKeyDown {V : Type} (k : Key) (s : ComboState V) : ComboState V :=
  match k with
  | Key.escape => { s.closePopup with focus := ComboFocus.button }
  | Key.downArrow => s.moveFocus 1
  | Key.upArrow => s.moveFocus (-1)
  | Key.tab => s.closePopup
  | Key.other => s

theorem ComboState.moveFocus_value {V : Type} (d : Int) (s : ComboState V) :
    (s.moveFocus d).value = s.value := by
  cases hfi : s.focusedIndex with
  | none => simp [ComboState.moveFocus, hfi]
  | some i =>
      simp only [ComboState.moveFocus, hfi]
      split <;> rfl

/-- Claim C5: while the popup is open with `n` items and `self.focusedItem`
on item `i`, a Down-arrow moves focus to item `i + 1` when `i + 1 < n`
and is a no-op otherwise; an Up-arrow moves focus to item `i - 1` when
`i > 0` and is a no-op otherwise (no wraparound); and arrow keys never
change the bound property's value. -/
theorem comboBox_keyboard_navigation {V : Type} (s : ComboState V) (i : Nat)
    (hopen : s.listVisible = true) (hfoc : s.focusedIndex = Option.some i)
    (hi : i < s.numItems) :
    ((i + 1 < s.numItems →
        (s.handleKeyDown Key.downArrow).focusedIndex = Option.some (i + 1))
      ∧ (¬ i + 1 < s.numItems → s.handleKeyDown Key.downArrow = s))
    ∧ ((0 < i →
        (s.handleKeyDown Key.upArrow).focusedIndex = Option.some (i - 1))
      ∧ (i = 0 → s.handleKeyDown Key.upArrow = s))
    ∧ (s.handleKeyDown Key.downArrow).value = s.value
    ∧ (s.handleKeyDown Key.upArrow).value = s.value := by
  have hdown : s.handleKeyDown Key.downArrow = s.moveFocus 1 := rfl
  have hup : s.handleKeyDown Key.upArrow = s.moveFocus (-1) := rfl
  refine ⟨⟨?_, ?_⟩, ⟨?_, ?_⟩, ?_, ?_⟩
  · intro h1
    rw [hdown]
    simp only [ComboState.moveFocus, hfoc]
    rw [if_pos ⟨by omega, by omega⟩]
    simp only [Option.some.injEq]
    omega
  · intro h1
    rw [hdown]
    simp only [ComboState.moveFocus, hfoc]
    rw [if_neg (by omega)]
  · intro h1
    rw [hup]
    simp only [ComboState.moveFocus, hfoc]
    rw [if_pos ⟨by omega, by omega⟩]
    simp only [Option.some.injEq]
    omega
  · intro h1
    rw [hup]
    simp only [ComboState.moveFocus, hfoc]
    rw [if_neg (by omega)]
  · rw [hdown]
    exact ComboState.moveFocus_value 1 s
  · rw [hup]
    exact ComboState.moveFocus_value (-1) s

/-- Witness for C5: three items, focus on item 0; Up is a no-op, Down
moves the focus to item 1 without changing the value. -/
theorem comboBox_keyboard_navigation_witness :
    ((⟨true, true, 0, ComboFocus.item 0, Option.some 0, 3⟩ :
        ComboState Nat).handleKeyDown Key.downArrow).focusedIndex = Option.some 1
    ∧ (⟨true, true, 0, ComboFocus.item 0, Option.some 0, 3⟩ :
        ComboState Nat).handleKeyDown Key.upArrow
      = ⟨true, true, 0, ComboFocus.item 0, Option.some 0, 3⟩
    ∧ ((⟨true, true, 0, ComboFocus.item 0, Option.some 0, 3⟩ :
        ComboState Nat).handleKeyDown Key.downArrow).value = 0 :=
  ⟨(comboBox_keyboard_navigation (⟨true, true, 0, ComboFocus.item 0, Option.some 0, 3⟩ :
      ComboState Nat) 0 rfl rfl (by decide)).1.1 (by decide),
    (comboBox_keyboard_navigation (⟨true, true, 0, ComboFocus.item 0, Option.some 0, 3⟩ :
      ComboState Nat) 0 rfl rfl (by decide)).2.1.2 rfl,
    (comboBox_keyboard_navigation (⟨true, true, 0, ComboFocus.item 0, Option.some 0, 3⟩ :
      ComboState Nat) 0 rfl rfl (by decide)).2.2.1⟩

/-- Counterexample to claim C6 as stated: selecting an item through the
pointer path (`itemListener.up`) sets the value, removes the dismiss
listener and hides the list, but does not restore keyboard focus to the
combo box button — the `up` handler never calls `buttonNode.focus()`.
Here a selection from an open popup with focus on item 0 leaves focus
on item 0. -/
theorem comboBox_item_selection_counterexample :
    (exceptState ((⟨true, true, 0, ComboFocus.item 0, Option.some 0, 3⟩ :
        ComboState Nat).itemUp false 2)).focus ≠ ComboFocus.button
    ∧ (exceptState ((⟨true, true, 0, ComboFocus.item 0, Option.some 0, 3⟩ :
        ComboState Nat).itemUp false 2)).focus = ComboFocus.item 0
    ∧ (exceptState ((⟨true, true, 0, ComboFocus.item 0, Option.some 0, 3⟩ :
        ComboState Nat).itemUp false 2)).value = 2 := by
  refine ⟨?_, rfl, rfl⟩
  decide

/-- Claim C6 (amended): selecting an item sets the bound property to
the item's value, removes the dismiss listener and hides the popup on
both paths; but only the assistive-technology click path additionally
restores keyboard focus to the combo box button — pointer-release
selection leaves keyboard focus unchanged. -/
theorem comboBox_item_selection {V : Type} (v : V) (s : ComboState V) :
    (exceptState (s.itemUp false v)).value = v
    ∧ (exceptState (s.itemUp false v)).dismissRegistered = false
    ∧ (exceptState (s.itemUp false v)).listVisible = false
    ∧ (exceptState (s.itemUp false v)).focus = s.focus
    ∧ (s.a11yItemClick v).value = v
    ∧ (s.a11yItemClick v).dismissRegistered = false
    ∧ (s.a11yItemClick v).listVisible = false
    ∧ (s.a11yItemClick v).focus = ComboFocus.button :=
  ⟨rfl, rfl, rfl, rfl, rfl, rfl, rfl, rfl⟩

/-- Claim C9: on the pointer selection path the list is hidden and the
dismiss listener removed strictly before the property assignment, so
whether or not an observer of the assignment throws, the reached state
(normal return or escaping exception) has the popup hidden, no dismiss
listener registered, and the value written; an observer exception
propagates out of the handler with exactly that closed state. -/
theorem comboBox_select_closes_before_notify {V : Type} (observerThrows : Bool) (v : V)
    (s : ComboState V) :
    (exceptState (s.itemUp observerThrows v)).listVisible = false
    ∧ (exceptState (s.itemUp observerThrows v)).dismissRegistered = false
    ∧ (exceptState (s.itemUp observerThrows v)).value = v
    ∧ s.itemUp true v
        = Except.error { s with listVisible := false, dismissRegistered := false, value := v } := by
  cases observerThrows <;> exact ⟨rfl, rfl, rfl, rfl⟩

/-! ## RoundButtonView configuration check (src/unnamed/part_000)

The constructor's very first action (before applying defaults) is

  if ( !(options.content || options.radius) ) \x7b
    throw new Error( 'RoundButtonView should have content or radius' );
  \x7d

`options.content` is a scenery node or null/undefined (a node is always
truthy); `options.radius` is a number or null/undefined, and the number
`0` is falsy in JavaScript.  Construction is modelled up to this check:
the error branch throws before any other effect, the ok branch goes on
to build the view. -/

/-- The configuration error thrown by `RoundButtonView`. -/
inductive RoundButtonError where
  | missingContentAndRadius
deriving DecidableEq

/-- The `content` and `radius` entries of the options record as passed
by the caller (`Option.none` models null/undefined). -/
structure RoundButtonOptions where
  content : Option Unit
  radius : Option ℚ
deriving DecidableEq

/-- JavaScript truthiness of `options.content || options.radius`: a
supplied node is truthy; a supplied radius is truthy unless it is 0. -/
def hasContentOrRadius (o : RoundButtonOptions) : Bool :=
  o.content.isSome ||
    (match o.radius with
      | Option.some r => decide (r ≠ 0)
      | Option.none => false)

/-- Construction of `RoundButtonView`, modelled up to the fail-fast
configuration check: the check runs before any other effect of the
constructor, and its error branch has no other effect. -/
def RoundButtonView (o : RoundButtonOptions) : Except RoundButtonError Unit :=
  if hasContentOrRadius o then Except.ok ()
  else Except.error RoundButtonError.missingContentAndRadius

/-- Whether construction with options `o` throws the configuration
error. -/
def throwsConfigError (o : RoundButtonOptions) : Bool :=
  match RoundButtonView o with
  | Except.error _ => true
  | Except.ok _ => false

/-- Counterexample to claim C8 as stated: the options record that
supplies `radius = 0` (and no content) does supply a radius, yet the
constructor throws, because JavaScript's truthiness test treats 0 as
absent. -/
theorem roundButton_radius_zero_counterexample :
    (⟨Option.none, Option.some 0⟩ : RoundButtonOptions).radius.isSome = true
    ∧ throwsConfigError ⟨Option.none, Option.some 0⟩ = true := by
  constructor
  · rfl
  · with_unfolding_all decide

/-- Claim C8 (amended): construction fails fast with the configuration
error exactly when the options record supplies neither content nor a
nonzero radius: both absent throws, supplied content never throws, a
supplied nonzero radius never throws, but a supplied radius equal to 0
(falsy in JavaScript) also throws. -/
theorem roundButton_failFast (o : RoundButtonOptions) :
    throwsConfigError o = true ↔
      (o.content = Option.none ∧
        (o.radius = Option.none ∨ o.radius = Option.some 0)) := by
  rcases o with ⟨c, r⟩
  cases c with
  | some u => simp [throwsConfigError, RoundButtonView, hasContentOrRadius]
  | none =>
      cases r with
      | none => simp [throwsConfigError, RoundButtonView, hasContentOrRadius]
      | some x =>
          by_cases hx : x = 0
          · subst hx
            simp [throwsConfigError, RoundButtonView, hasContentOrRadius]
          · simp [throwsConfigError, RoundButtonView, hasContentOrRadius, hx]
